import Mathlib

/-!
Verification development for the Roof-Estimate-Return-Webhook repository.

The repository is a webhook relay: a callback endpoint
(`src/api/estimate-callback.ts`, default export `handler`) receives an
estimate payload keyed by a caller-supplied `callbackId`, validates it and
writes an `EstimateResult` into an in-memory `Map`; two polling endpoints
(`src/api/get-result.ts` and `src/api/estimate-status/[callbackId].ts`)
read the store through the exported `getResult`, which performs lazy
TTL-based eviction; a periodic `setInterval` sweep deletes expired entries.

This file shallowly embeds those handlers and the store. JavaScript
payload values are modelled by `JVal` (numbers as `Int`: every value the
handlers inspect is compared only for `typeof`/truthiness, never
arithmetically), absent fields by `Option`, the `Map` by an association
list, and `Date.now()` by an explicit `Nat` parameter.
-/

namespace RoofWebhook

/-- A JavaScript value as it appears in a parsed JSON request body. -/
inductive JVal where
  | num (n : Int)
  | str (s : String)
  | boolean (b : Bool)
  | null
deriving DecidableEq, Repr

/-- JavaScript truthiness of a defined value: `0`, `""`, `false` and
`null` are falsy, everything else truthy. -/
def JVal.truthy : JVal → Bool
  | .num n => n != 0
  | .str s => s != ""
  | .boolean b => b
  | .null => false

/-- A parsed JSON request body: an association of field names to values. -/
abbrev Payload := List (String × JVal)

/-- Property access `req.body[key]`: `none` models JavaScript `undefined`
(field absent). -/
def getField : Payload → String → Option JVal
  | [], _ => none
  | (k, v) :: rest, key => if k = key then some v else getField rest key

/-- Truthiness of a possibly-undefined value: `undefined` is falsy. -/
def jsTruthy : Option JVal → Bool
  | none => false
  | some v => v.truthy

/-- JavaScript `a || b`: the left operand if truthy, otherwise the right. -/
def jsOr (a b : Option JVal) : Option JVal :=
  if jsTruthy a then a else b

/-- `typeof x === 'number'` for a possibly-undefined value. -/
def isNumberOpt : Option JVal → Bool
  | some (.num _) => true
  | _ => false

/-- The field coalescing from `src/api/estimate-callback.ts` line 114:
`req.body.totalEstimate || req.body['Total Estimate $'] || req.body['total_estimate_']`. -/
def coalesceEstimate (body : Payload) : Option JVal :=
  jsOr (jsOr (getField body "totalEstimate") (getField body "Total Estimate $"))
    (getField body "total_estimate_")

/-- The `status` member of the `EstimateResult` interface:
`'success' | 'error'`. -/
inductive EStatus where
  | success
  | error
deriving DecidableEq, Repr

/-- The condition `status && ['success', 'error'].includes(status)` from
`src/api/estimate-callback.ts` line 142 (the strings `"success"` and
`"error"` are truthy, and `includes` uses strict equality, so the
conjunction holds exactly for those two string values). -/
def recognizedStatus (status : Option JVal) : Bool :=
  status == some (JVal.str "success") || status == some (JVal.str "error")

/-- The resolved status `validStatus`: the provided status when it is the
string `"success"` or `"error"`, else the default `'success'`
(`src/api/estimate-callback.ts` line 142). -/
def resolveStatus (status : Option JVal) : EStatus :=
  if recognizedStatus status then
    (if status == some (JVal.str "error") then .error else .success)
  else .success

/-- The stored result record (interface `EstimateResult` in
`src/api/estimate-callback.ts` lines 24-29). The handler builds it with
`...(totalEstimate !== undefined && { totalEstimate })` and
`...(message && { message })`, so `totalEstimate` is present exactly when
the coalesced value is defined and `message` exactly when truthy; the
runtime value spread into `totalEstimate` is whatever the coalescing
produced, hence `Option JVal` rather than `Option Int` here. -/
structure EstimateResult where
  status : EStatus
  totalEstimate : Option JVal
  message : Option JVal
  receivedAt : Nat
deriving DecidableEq, Repr

/-- The in-memory `resultStore : Map<string, EstimateResult>`, as an
association list. -/
abbrev Store := List (String × EstimateResult)

/-- `resultStore.get(id)` (no expiry check). -/
def Store.getRaw : Store → String → Option EstimateResult
  | [], _ => none
  | (k, v) :: rest, id => if k = id then some v else Store.getRaw rest id

/-- `resultStore.set(id, entry)`: unconditional upsert. -/
def Store.set : Store → String → EstimateResult → Store
  | [], id, entry => [(id, entry)]
  | (k, v) :: rest, id, entry =>
    if k = id then (id, entry) :: rest else (k, v) :: Store.set rest id entry

/-- `resultStore.delete(id)`. -/
def Store.del : Store → String → Store
  | [], _ => []
  | (k, v) :: rest, id =>
    if k = id then Store.del rest id else (k, v) :: Store.del rest id

/-- `RESULT_TTL = 5 * 60 * 1000` milliseconds
(`src/api/estimate-callback.ts` line 37). -/
def RESULT_TTL : Nat := 5 * 60 * 1000

/-- The exported `getResult(callbackId)` helper
(`src/api/estimate-callback.ts` lines 414-447): `none` when never written;
an entry whose age `now - receivedAt` exceeds `RESULT_TTL` is deleted from
the store as a side effect and `none` returned; otherwise the entry is
returned and the store untouched. The mutated store is returned as the
second component. -/
def getResult (store : Store) (callbackId : String) (now : Nat) :
    Option EstimateResult × Store :=
  match Store.getRaw store callbackId with
  | none => (none, store)
  | some result =>
    if now - result.receivedAt > RESULT_TTL then
      (none, Store.del store callbackId)
    else
      (some result, store)

/-- The periodic cleanup sweep (`setInterval` body,
`src/api/estimate-callback.ts` lines 38-62): deletes every entry whose age
exceeds `RESULT_TTL`. -/
def cleanupSweep (store : Store) (now : Nat) : Store :=
  store.filter (fun kv => if now - kv.2.receivedAt > RESULT_TTL then false else true)

/-- The two validation failures of the callback handler, each answered
with HTTP 400. -/
inductive CallbackRejection where
  | missingCallbackId
  | invalidTotalEstimate
deriving DecidableEq, Repr

/-- The callback handler's response on the POST path: a 400 with one of
the two rejection reasons, or the 200 acknowledgement (the HTML page the
source renders embeds the stored `result` object, modelled here by the
`ok` payload). -/
inductive CallbackResponse where
  | badRequest (reason : CallbackRejection)
  | ok (result : EstimateResult)
deriving DecidableEq, Repr

/-- The `message` member inclusion `...(message && { message })`. -/
def buildMessage (message : Option JVal) : Option JVal :=
  if jsTruthy message then message else none

/-- The `result` object the handler builds
(`src/api/estimate-callback.ts` lines 184-190). -/
def mkResult (body : Payload) (now : Nat) : EstimateResult :=
  { status := resolveStatus (getField body "status")
    totalEstimate := coalesceEstimate body
    message := buildMessage (getField body "message")
    receivedAt := now }

/-- The POST path of the callback handler
(`src/api/estimate-callback.ts` lines 108-205). The guard
`!callbackId || typeof callbackId !== 'string'` rejects exactly every
value that is not a non-empty string, hence the match below; with a valid
id, the handler answers 400 when `validStatus === 'success'` and
`typeof totalEstimate !== 'number'`, and otherwise stores `mkResult` under
the id and acknowledges. -/
def processCallback (body : Payload) (now : Nat) (store : Store) :
    CallbackResponse × Store :=
  match getField body "callbackId" with
  | some (JVal.str s) =>
    if s = "" then (.badRequest .missingCallbackId, store)
    else if resolveStatus (getField body "status") = EStatus.success
        ∧ isNumberOpt (coalesceEstimate body) = false then
      (.badRequest .invalidTotalEstimate, store)
    else
      (.ok (mkResult body now), Store.set store s (mkResult body now))
  | _ => (.badRequest .missingCallbackId, store)

/-- A polling endpoint's response on the GET path. `okResult` is the bare
200-with-entry body of `src/api/get-result.ts`; `completed` is the
`{status: 'completed', result}` body of
`src/api/estimate-status/[callbackId].ts`; `pending` its
`{status: 'pending'}` body; `notFound` the 404 of `src/api/get-result.ts`;
`badRequest` the 400 for a missing id. -/
inductive PollResponse where
  | badRequest
  | notFound
  | pending
  | completed (result : EstimateResult)
  | okResult (result : EstimateResult)
deriving DecidableEq, Repr

/-- The GET path of `src/api/get-result.ts`: 400 unless the id is a
non-empty string, then 404 when `getResult` yields nothing, else 200 with
the entry. -/
def getResultHandler (callbackId : Option JVal) (store : Store) (now : Nat) :
    PollResponse × Store :=
  match callbackId with
  | some (JVal.str s) =>
    if s = "" then (.badRequest, store)
    else
      match getResult store s now with
      | (none, store') => (.notFound, store')
      | (some r, store') => (.okResult r, store')
  | _ => (.badRequest, store)

/-- The GET path of `src/api/estimate-status/[callbackId].ts`: 400 unless
the id is a non-empty string, then 200 `{status: 'pending'}` when
`getResult` yields nothing, else 200 `{status: 'completed', result}`. -/
def estimateStatusHandler (callbackId : Option JVal) (store : Store) (now : Nat) :
    PollResponse × Store :=
  match callbackId with
  | some (JVal.str s) =>
    if s = "" then (.badRequest, store)
    else
      match getResult store s now with
      | (none, store') => (.pending, store')
      | (some r, store') => (.completed r, store')
  | _ => (.badRequest, store)

/-- The callback handler's id validation, acceptance side: exactly the
non-empty strings pass the `!callbackId || typeof callbackId !== 'string'`
guard. -/
def validCallbackId : Option JVal → Bool
  | some (.str s) => s != ""
  | _ => false

/-- Formalisation of the claimed coalescing rule as written: the value of
the first candidate field that is PRESENT in the payload, in the priority
order `totalEstimate`, `"Total Estimate $"`, `"total_estimate_"`. This is
the statement under test, not the source's behaviour. -/
def firstPresent (body : Payload) : Option JVal :=
  match getField body "totalEstimate" with
  | some v => some v
  | none =>
    match getField body "Total Estimate $" with
    | some v => some v
    | none => getField body "total_estimate_"

/-- Formalisation of the amended coalescing rule: the value of the first
candidate field whose value is truthy, in the same priority order; when no
candidate is truthy, the last candidate's value (possibly absent). -/
def firstTruthy (body : Payload) : Option JVal :=
  if jsTruthy (getField body "totalEstimate") then getField body "totalEstimate"
  else if jsTruthy (getField body "Total Estimate $") then getField body "Total Estimate $"
  else getField body "total_estimate_"

/-- Per-entry store invariant: an entry with status `success` carries a
numeric `totalEstimate`. (The other half of the claimed invariant, that
every stored status lies in `{success, error}`, is the `EStatus` type of
the `status` member, taken from the source's `EstimateResult` interface.) -/
def entryOk (r : EstimateResult) : Bool :=
  match r.status with
  | .error => true
  | .success => isNumberOpt r.totalEstimate

/-- Store-wide invariant: every entry satisfies `entryOk`. -/
def storeOk : Store → Bool
  | [] => true
  | (_, v) :: rest => entryOk v && storeOk rest

/-! ### Helper lemmas about the store -/

theorem getRaw_set_self (st : Store) (k : String) (v : EstimateResult) :
    Store.getRaw (Store.set st k v) k = some v := by
  induction st with
  | nil => simp [Store.set, Store.getRaw]
  | cons hd tl ih =>
    obtain ⟨k', v'⟩ := hd
    by_cases h : k' = k
    · simp [Store.set, h, Store.getRaw]
    · simp [Store.set, h, Store.getRaw, ih]

theorem getRaw_del_ne (st : Store) (id k : String) (h : k ≠ id) :
    Store.getRaw (Store.del st id) k = Store.getRaw st k := by
  induction st with
  | nil => rfl
  | cons hd tl ih =>
    obtain ⟨k', v'⟩ := hd
    by_cases h1 : k' = id
    · subst h1
      simp [Store.del, Store.getRaw, Ne.symm h, ih]
    · by_cases h2 : k' = k
      · subst h2
        simp [Store.del, h1, Store.getRaw]
      · simp [Store.del, h1, Store.getRaw, h2, ih]

theorem storeOk_set (st : Store) (k : String) (v : EstimateResult)
    (hst : storeOk st = true) (hv : entryOk v = true) :
    storeOk (Store.set st k v) = true := by
  induction st with
  | nil => simp [storeOk, Store.set, hv]
  | cons hd tl ih =>
    obtain ⟨k', v'⟩ := hd
    rw [storeOk, Bool.and_eq_true] at hst
    by_cases h : k' = k
    · simp [Store.set, h, storeOk, hv, hst.2]
    · simp [Store.set, h, storeOk, hst.1, ih hst.2]

theorem storeOk_filter (st : Store) (q : String × EstimateResult → Bool)
    (hst : storeOk st = true) : storeOk (st.filter q) = true := by
  induction st with
  | nil => rfl
  | cons hd tl ih =>
    obtain ⟨k', v'⟩ := hd
    rw [storeOk, Bool.and_eq_true] at hst
    cases hq : q (k', v') with
    | true => simp [List.filter_cons, hq, storeOk, hst.1, ih hst.2]
    | false => simp [List.filter_cons, hq, ih hst.2]

theorem storeOk_del (st : Store) (id : String)
    (hst : storeOk st = true) : storeOk (Store.del st id) = true := by
  induction st with
  | nil => rfl
  | cons hd tl ih =>
    obtain ⟨k', v'⟩ := hd
    rw [storeOk, Bool.and_eq_true] at hst
    by_cases h : k' = id
    · simp [Store.del, h, ih hst.2]
    · simp [Store.del, h, storeOk, hst.1, ih hst.2]

/-- Inversion of a successful callback: the acknowledged entry is
`mkResult body now`, the id field is a non-empty string, and the new store
is the old one with that entry upserted under the id. -/
theorem processCallback_ok_inv (body : Payload) (now : Nat) (st : Store)
    (r : EstimateResult) (st' : Store)
    (h : processCallback body now st = (.ok r, st')) :
    r = mkResult body now ∧
    ∃ s, getField body "callbackId" = some (JVal.str s) ∧ s ≠ "" ∧
      st' = Store.set st s r := by
  unfold processCallback at h
  split at h
  next s hcb =>
    by_cases hs : s = ""
    · rw [if_pos hs] at h
      simp at h
    · rw [if_neg hs] at h
      split at h
      · simp at h
      · rw [Prod.mk.injEq] at h
        obtain ⟨h1, h2⟩ := h
        have hr : r = mkResult body now := by
          cases h1
          rfl
        refine ⟨hr, s, hcb, hs, ?_⟩
        rw [hr, ← h2]
  next =>
    simp at h

/-! ### Claim C1 -/

/-- A payload in which the first candidate field is present with the falsy
value `0` while the second candidate holds `2200`. -/
def c1Body : Payload :=
  [("callbackId", JVal.str "c"), ("totalEstimate", JVal.num 0),
   ("Total Estimate $", JVal.num 2200)]

/-- Claim C1, counterexample. The claim says the stored estimate is the
value of the first candidate field present in the payload. On `c1Body` the
first candidate `totalEstimate` is present with value `0`, so the claimed
rule yields `0`; but the code's chain skips the falsy `0` and both the
coalesced value and the stored entry's `totalEstimate` are `2200`. -/
theorem coalesce_first_present_counterexample :
    firstPresent c1Body = some (JVal.num 0) ∧
    coalesceEstimate c1Body = some (JVal.num 2200) ∧
    Store.getRaw (processCallback c1Body 0 []).2 "c"
      = some { status := EStatus.success, totalEstimate := some (JVal.num 2200),
               message := none, receivedAt := 0 } := by
  decide

/-- Claim C1, amended. The coalesced estimate equals the value of the
first candidate field whose value is truthy, in the priority order
`totalEstimate`, `"Total Estimate $"`, `"total_estimate_"` (when no
candidate is truthy, the last candidate's value is used); and posting
`{"Total Estimate $": 2200}` stores a canonical `totalEstimate` of 2200. -/
theorem coalesce_matches_first_truthy (body : Payload) :
    coalesceEstimate body = firstTruthy body ∧
    Store.getRaw (processCallback [("callbackId", JVal.str "cb"),
        ("Total Estimate $", JVal.num 2200)] 0 []).2 "cb"
      = some { status := EStatus.success, totalEstimate := some (JVal.num 2200),
               message := none, receivedAt := 0 } := by
  constructor
  · by_cases h1 : jsTruthy (getField body "totalEstimate") = true
    · simp [coalesceEstimate, firstTruthy, jsOr, h1]
    · by_cases h2 : jsTruthy (getField body "Total Estimate $") = true
      · simp [coalesceEstimate, firstTruthy, jsOr, h1, h2]
      · simp [coalesceEstimate, firstTruthy, jsOr, h1, h2]
  · decide

/-! ### Claim C3 -/

/-- Claim C3. A callback whose id is a valid (non-empty string) correlation
id, whose status resolves to `success`, and whose coalesced estimate is not
a number, is answered 400 and the store is left exactly as it was. -/
theorem success_non_numeric_rejected (body : Payload) (now : Nat) (st : Store)
    (s : String)
    (hid : getField body "callbackId" = some (JVal.str s)) (hs : s ≠ "")
    (hstat : resolveStatus (getField body "status") = EStatus.success)
    (hnum : isNumberOpt (coalesceEstimate body) = false) :
    processCallback body now st
      = (.badRequest .invalidTotalEstimate, st) := by
  unfold processCallback
  rw [hid]
  simp [hs, hstat, hnum]

/-- Payload for the C3 witness: valid id, explicit `success` status, and a
truthy non-numeric estimate string, so the coalesced value is the string. -/
def c3Body : Payload :=
  [("callbackId", JVal.str "c"), ("status", JVal.str "success"),
   ("totalEstimate", JVal.str "not-a-number")]

/-- Witness for claim C3 at a concrete payload. -/
theorem success_non_numeric_rejected_witness :
    getField c3Body "callbackId" = some (JVal.str "c") ∧ ("c" : String) ≠ "" ∧
    resolveStatus (getField c3Body "status") = EStatus.success ∧
    isNumberOpt (coalesceEstimate c3Body) = false ∧
    processCallback c3Body 3 [] = (.badRequest .invalidTotalEstimate, []) :=
  ⟨by decide, by decide, by decide, by decide,
   success_non_numeric_rejected c3Body 3 [] "c"
     (by decide) (by decide) (by decide) (by decide)⟩

/-! ### Claim C8 -/

/-- Claim C8. When the payload's `status` field is absent or not one of
the strings `"success"`/`"error"` (i.e. not recognized), any entry the
callback handler stores and acknowledges has status `success`. -/
theorem unrecognized_status_defaults_success (body : Payload) (now : Nat)
    (st : Store) (r : EstimateResult) (st' : Store)
    (hstat : recognizedStatus (getField body "status") = false)
    (h : processCallback body now st = (.ok r, st')) :
    r.status = EStatus.success := by
  obtain ⟨hr, -⟩ := processCallback_ok_inv body now st r st' h
  rw [hr]
  unfold mkResult resolveStatus
  simp [hstat]

/-- Payload for the C8 witness: `totalEstimate = 1500` with no status. -/
def c8Body : Payload :=
  [("callbackId", JVal.str "a"), ("totalEstimate", JVal.num 1500)]

/-- Witness for claim C8: posting `totalEstimate = 1500` with no status
field stores an entry with status `success`. -/
theorem unrecognized_status_defaults_success_witness :
    recognizedStatus (getField c8Body "status") = false ∧
    processCallback c8Body 0 []
      = (.ok (mkResult c8Body 0), [("a", mkResult c8Body 0)]) ∧
    (mkResult c8Body 0).status = EStatus.success :=
  ⟨by decide, by decide,
   unrecognized_status_defaults_success c8Body 0 [] (mkResult c8Body 0)
     [("a", mkResult c8Body 0)] (by decide) (by decide)⟩

/-! ### Claim C9 -/

/-- Claim C9. The callback handler's id validation: when the body's
`callbackId` is absent, an empty string, or not a string (exactly
`validCallbackId = false`), the handler answers 400 with the missing-id
error and leaves the store untouched; when it is a non-empty string, the
missing-id rejection is never the response — no further format validation
is applied to the id. -/
theorem callbackId_validation (body : Payload) (now : Nat) (st : Store) :
    (validCallbackId (getField body "callbackId") = false →
      processCallback body now st
        = (.badRequest .missingCallbackId, st)) ∧
    (validCallbackId (getField body "callbackId") = true →
      (processCallback body now st).1
        ≠ CallbackResponse.badRequest CallbackRejection.missingCallbackId) := by
  constructor
  · intro hbad
    unfold processCallback
    cases hcb : getField body "callbackId" with
    | none => rfl
    | some v =>
      cases v with
      | str s =>
        rw [hcb] at hbad
        have hs : s = "" := by simpa [validCallbackId] using hbad
        simp [hs]
      | num n => rfl
      | boolean b => rfl
      | null => rfl
  · intro hgood
    unfold processCallback
    cases hcb : getField body "callbackId" with
    | none => rw [hcb] at hgood; simp [validCallbackId] at hgood
    | some v =>
      cases v with
      | str s =>
        rw [hcb] at hgood
        have hs : s ≠ "" := by simpa [validCallbackId] using hgood
        simp only [if_neg hs]
        split
        · simp
        · simp
      | num n => rw [hcb] at hgood; simp [validCallbackId] at hgood
      | boolean b => rw [hcb] at hgood; simp [validCallbackId] at hgood
      | null => rw [hcb] at hgood; simp [validCallbackId] at hgood

/-- Witness for claim C9 at concrete requests: a body with no
`callbackId` is rejected with the missing-id 400 and no write; a body
whose `callbackId` is the empty string likewise; a body whose
`callbackId` is a non-empty string is never answered with the missing-id
rejection. -/
theorem callbackId_validation_witness :
    processCallback [("totalEstimate", JVal.num 5)] 0 []
      = (.badRequest .missingCallbackId, []) ∧
    processCallback [("callbackId", JVal.str ""), ("totalEstimate", JVal.num 5)] 0 []
      = (.badRequest .missingCallbackId, []) ∧
    (processCallback [("callbackId", JVal.str "x")] 0 []).1
      ≠ CallbackResponse.badRequest CallbackRejection.missingCallbackId :=
  ⟨(callbackId_validation [("totalEstimate", JVal.num 5)] 0 []).1 (by decide),
   (callbackId_validation
     [("callbackId", JVal.str ""), ("totalEstimate", JVal.num 5)] 0 []).1 (by decide),
   (callbackId_validation [("callbackId", JVal.str "x")] 0 []).2 (by decide)⟩

/-! ### Claim C2 -/

/-- Claim C2, counterexample. For a correlation id with no unexpired
entry (here: the empty store), the claim says every polling handler
responds non-error with the pending state; but the `get-result` handler
responds with its 404 not-found error, not pending. -/
theorem poll_absent_counterexample :
    (getResultHandler (some (JVal.str "x")) [] 0).1 = PollResponse.notFound ∧
    (getResultHandler (some (JVal.str "x")) [] 0).1 ≠ PollResponse.pending := by
  decide

/-- Claim C2, amended. For every valid correlation id with no unexpired
entry, each polling handler is individually consistent, but the two
differ: `estimate-status` responds 200 pending, while `get-result`
responds 404 not-found. -/
theorem poll_absent_responses (s : String) (st : Store) (now : Nat)
    (hs : s ≠ "") (habsent : (getResult st s now).1 = none) :
    (estimateStatusHandler (some (JVal.str s)) st now).1 = PollResponse.pending ∧
    (getResultHandler (some (JVal.str s)) st now).1 = PollResponse.notFound := by
  cases hg : getResult st s now with
  | mk a b =>
    rw [hg] at habsent
    simp only at habsent
    subst habsent
    constructor
    · simp [estimateStatusHandler, hs, hg]
    · simp [getResultHandler, hs, hg]

/-- Witness for amended claim C2 at a concrete absent id. -/
theorem poll_absent_responses_witness :
    ("x" : String) ≠ "" ∧ (getResult [] "x" 0).1 = none ∧
    ((estimateStatusHandler (some (JVal.str "x")) [] 0).1 = PollResponse.pending ∧
     (getResultHandler (some (JVal.str "x")) [] 0).1 = PollResponse.notFound) :=
  ⟨by decide, by decide, poll_absent_responses "x" [] 0 (by decide) (by decide)⟩

/-! ### Claim C4 -/

theorem storeOk_processCallback (body : Payload) (now : Nat) (st : Store)
    (h : storeOk st = true) :
    storeOk (processCallback body now st).2 = true := by
  unfold processCallback
  split
  next s hcb =>
    split
    · exact h
    · split
      · exact h
      · next hcond =>
        apply storeOk_set st s _ h
        unfold entryOk mkResult
        cases hres : resolveStatus (getField body "status") with
        | error => rfl
        | success =>
          by_cases hn : isNumberOpt (coalesceEstimate body) = true
          · simpa using hn
          · exact absurd ⟨hres, by simpa using hn⟩ hcond
  next => exact h

theorem storeOk_getResult (st : Store) (id : String) (now : Nat)
    (h : storeOk st = true) :
    storeOk (getResult st id now).2 = true := by
  unfold getResult
  split
  · exact h
  · split
    · exact storeOk_del st id h
    · exact h

/-- Claim C4. The store invariant — every entry's status lies in
`{success, error}` (the `EStatus` type of the `status` member) and every
`success` entry carries a present, numeric `totalEstimate` (`entryOk`) —
is preserved by a callback write, by a read through `getResult` (with its
lazy eviction), and by the periodic cleanup sweep. -/
theorem store_invariant_preserved (body : Payload) (st : Store) (id : String)
    (now1 now2 now3 : Nat) (h : storeOk st = true) :
    storeOk (processCallback body now1 st).2 = true ∧
    storeOk (getResult st id now2).2 = true ∧
    storeOk (cleanupSweep st now3) = true :=
  ⟨storeOk_processCallback body now1 st h,
   storeOk_getResult st id now2 h,
   storeOk_filter st _ h⟩

/-- A store holding one valid entry, for the invariant witness. -/
def c4Store : Store :=
  [("a", { status := EStatus.success, totalEstimate := some (JVal.num 5),
           message := none, receivedAt := 0 })]

/-- Witness for claim C4 on a concrete store and operations. -/
theorem store_invariant_preserved_witness :
    storeOk c4Store = true ∧
    (storeOk (processCallback [("callbackId", JVal.str "b"),
        ("totalEstimate", JVal.num 9)] 1 c4Store).2 = true ∧
     storeOk (getResult c4Store "a" 2).2 = true ∧
     storeOk (cleanupSweep c4Store 3) = true) :=
  ⟨by decide,
   store_invariant_preserved [("callbackId", JVal.str "b"),
     ("totalEstimate", JVal.num 9)] c4Store "a" 1 2 3 (by decide)⟩

/-! ### Claim C5 -/

/-- Claim C5. Reading an id whose stored entry's age exceeds the 5-minute
`RESULT_TTL` returns absent and, as a side effect, deletes exactly that
entry (every other key reads unchanged); the `estimate-status` poller then
reports pending for it. -/
theorem expired_entry_lazy_eviction (st : Store) (s : String) (now : Nat)
    (r : EstimateResult) (hs : s ≠ "")
    (hfound : Store.getRaw st s = some r)
    (hexp : now - r.receivedAt > RESULT_TTL) :
    getResult st s now = (none, Store.del st s) ∧
    (∀ k, k ≠ s → Store.getRaw (Store.del st s) k = Store.getRaw st k) ∧
    (estimateStatusHandler (some (JVal.str s)) st now).1 = PollResponse.pending := by
  have hget : getResult st s now = (none, Store.del st s) := by
    unfold getResult
    rw [hfound]
    simp [hexp]
  refine ⟨hget, fun k hk => getRaw_del_ne st s k hk, ?_⟩
  simp [estimateStatusHandler, hs, hget]

/-- A two-entry store whose entry `"a"` was written at time 0, for the
expiry witness: at time 300001 ms its age exceeds the 300000 ms TTL. -/
def c5Store : Store :=
  [("a", { status := EStatus.success, totalEstimate := some (JVal.num 5),
           message := none, receivedAt := 0 }),
   ("b", { status := EStatus.success, totalEstimate := some (JVal.num 6),
           message := none, receivedAt := 200000 })]

/-- Witness for claim C5 at a concrete expired entry. -/
theorem expired_entry_lazy_eviction_witness :
    Store.getRaw c5Store "a"
      = some { status := EStatus.success, totalEstimate := some (JVal.num 5),
               message := none, receivedAt := 0 } ∧
    (300001 : Nat) - 0 > RESULT_TTL ∧
    (getResult c5Store "a" 300001 = (none, Store.del c5Store "a") ∧
     (∀ k, k ≠ "a" → Store.getRaw (Store.del c5Store "a") k = Store.getRaw c5Store k) ∧
     (estimateStatusHandler (some (JVal.str "a")) c5Store 300001).1
       = PollResponse.pending) :=
  ⟨by decide, by decide,
   expired_entry_lazy_eviction c5Store "a" 300001
     { status := EStatus.success, totalEstimate := some (JVal.num 5),
       message := none, receivedAt := 0 }
     (by decide) (by decide) (by decide)⟩

/-! ### Claim C6 -/

/-- Claim C6. Two successive acknowledged callback posts to the same
correlation id: the store afterwards maps the id to the second write's
entry only, that entry's timestamp is the time of the second write (so the
expiry clock is reset to it), and a `get` within the TTL of the second
write returns exactly the second entry. -/
theorem last_write_wins (p1 p2 : Payload) (t1 t2 t3 : Nat)
    (st st1 st2 : Store) (r1 r2 : EstimateResult) (s : String)
    (hid1 : getField p1 "callbackId" = some (JVal.str s))
    (hid2 : getField p2 "callbackId" = some (JVal.str s))
    (h1 : processCallback p1 t1 st = (.ok r1, st1))
    (h2 : processCallback p2 t2 st1 = (.ok r2, st2))
    (ht : t3 - t2 ≤ RESULT_TTL) :
    Store.getRaw st2 s = some r2 ∧ r2.receivedAt = t2 ∧
    getResult st2 s t3 = (some r2, st2) := by
  obtain ⟨hr2, s', hcb', hs', hst2⟩ := processCallback_ok_inv p2 t2 st1 r2 st2 h2
  have hss : s' = s := by
    rw [hid2] at hcb'
    simpa using hcb'.symm
  rw [hss] at hst2
  have hraw : Store.getRaw st2 s = some r2 := by
    rw [hst2]
    exact getRaw_set_self st1 s r2
  have hrt : r2.receivedAt = t2 := by
    rw [hr2]
    rfl
  have hnot : ¬ (t3 - r2.receivedAt > RESULT_TTL) := by
    rw [hrt]
    exact not_lt.mpr ht
  refine ⟨hraw, hrt, ?_⟩
  unfold getResult
  rw [hraw]
  simp [hnot]

/-- First post of the C6 witness. -/
def c6Post1 : Payload := [("callbackId", JVal.str "k"), ("totalEstimate", JVal.num 100)]

/-- Second post of the C6 witness. -/
def c6Post2 : Payload := [("callbackId", JVal.str "k"), ("totalEstimate", JVal.num 200)]

/-- Witness for claim C6: posting 100 then 200 under id `"k"`; the later
get (at 300010, within TTL of the second write at 10) sees only 200. -/
theorem last_write_wins_witness :
    processCallback c6Post1 0 []
      = (.ok (mkResult c6Post1 0), [("k", mkResult c6Post1 0)]) ∧
    processCallback c6Post2 10 [("k", mkResult c6Post1 0)]
      = (.ok (mkResult c6Post2 10), [("k", mkResult c6Post2 10)]) ∧
    (Store.getRaw [("k", mkResult c6Post2 10)] "k" = some (mkResult c6Post2 10) ∧
     (mkResult c6Post2 10).receivedAt = 10 ∧
     getResult [("k", mkResult c6Post2 10)] "k" 300010
       = (some (mkResult c6Post2 10), [("k", mkResult c6Post2 10)])) :=
  ⟨by decide, by decide,
   last_write_wins c6Post1 c6Post2 0 10 300010 [] [("k", mkResult c6Post1 0)]
     [("k", mkResult c6Post2 10)] (mkResult c6Post1 0) (mkResult c6Post2 10) "k"
     (by decide) (by decide) (by decide) (by decide) (by decide)⟩

/-! ### Claim C7 -/

/-- Claim C7. An acknowledged callback write followed by a `get` of the
same id at any time at most `RESULT_TTL` past the write returns exactly
the written entry, with the store unchanged by the read. -/
theorem put_then_get (body : Payload) (now later : Nat) (st st' : Store)
    (r : EstimateResult) (s : String)
    (hid : getField body "callbackId" = some (JVal.str s))
    (h : processCallback body now st = (.ok r, st'))
    (ht : later - now ≤ RESULT_TTL) :
    getResult st' s later = (some r, st') := by
  obtain ⟨hr, s', hcb', hs', hst'⟩ := processCallback_ok_inv body now st r st' h
  have hss : s' = s := by
    rw [hid] at hcb'
    simpa using hcb'.symm
  rw [hss] at hst'
  have hraw : Store.getRaw st' s = some r := by
    rw [hst']
    exact getRaw_set_self st s r
  have hrt : r.receivedAt = now := by
    rw [hr]
    rfl
  have hnot : ¬ (later - r.receivedAt > RESULT_TTL) := by
    rw [hrt]
    exact not_lt.mpr ht
  unfold getResult
  rw [hraw]
  simp [hnot]

/-- Payload of the C7 witness. -/
def c7Body : Payload := [("callbackId", JVal.str "p"), ("totalEstimate", JVal.num 42)]

/-- Witness for claim C7: write at time 5, read at time 6. -/
theorem put_then_get_witness :
    processCallback c7Body 5 []
      = (.ok (mkResult c7Body 5), [("p", mkResult c7Body 5)]) ∧
    (6 : Nat) - 5 ≤ RESULT_TTL ∧
    getResult [("p", mkResult c7Body 5)] "p" 6
      = (some (mkResult c7Body 5), [("p", mkResult c7Body 5)]) :=
  ⟨by decide, by decide,
   put_then_get c7Body 5 6 [] [("p", mkResult c7Body 5)] (mkResult c7Body 5) "p"
     (by decide) (by decide) (by decide)⟩

/-! ### Claim C10 -/

/-- Claim C10. A payload with status `"error"` and a truthy non-numeric
estimate value (the string `"abc"`) is accepted (200, not 400) and the
stored entry's `totalEstimate` is that non-numeric value: the numeric
check applies only when the resolved status is `success`. -/
theorem error_status_stores_non_numeric :
    processCallback [("callbackId", JVal.str "id1"), ("status", JVal.str "error"),
        ("totalEstimate", JVal.str "abc")] 7 []
      = (.ok { status := EStatus.error, totalEstimate := some (JVal.str "abc"),
               message := none, receivedAt := 7 },
         [("id1", { status := EStatus.error, totalEstimate := some (JVal.str "abc"),
                    message := none, receivedAt := 7 })]) := by
  decide

end RoofWebhook
